import Mathlib

/-!
Verification of the AzurePythonSDKUtilities helper module
(src/AzureStorageServices/azure_blob_storage.py) against its design
specification.  The Python functions are shallowly embedded as Lean
definitions: the remote container is a list of blob names, the vendor
SDK delete call is recorded in an explicit call trace, fallible code
returns Except, and the single-pass SDK listing iterator is made
explicit.
-/

/-- Python substring prefix test on character lists: does the first list
start the second one. -/
def pyStartsWith : List Char → List Char → Bool
  | [], _ => true
  | _ :: _, [] => false
  | a :: as, b :: bs => a == b && pyStartsWith as bs

/-- Python substring containment on character lists: the first list occurs
contiguously inside the second. -/
def pySubstrAux (needle : List Char) : List Char → Bool
  | [] => needle.isEmpty
  | b :: bs => pyStartsWith needle (b :: bs) || pySubstrAux needle bs

/-- Embedding of the Python expression `needle in hay` on strings:
literal substring containment. -/
def pyIn (needle hay : String) : Bool := pySubstrAux needle.data hay.data

/-- A blob storage container, modelled as the list of blob names it holds
(source: the container handle; blob paths are plain strings). -/
structure Container where
  blobs : List String
deriving DecidableEq, Repr

/-- A call into the vendor SDK recorded by the embedding.  The source
calls container_client.delete_blobs(file_name); the constructor carries
the list of names passed to one such call. -/
inductive SdkCall where
  | delete_blobs (names : List String)
deriving DecidableEq, Repr

/-- Embedding of list_blobs_in_the_container (lines 117-129).  The SDK
listing is a single-pass iterator: the print loop (run when print_list
is true) consumes it, and the trailing list comprehension consumes what
remains.  Returns (names printed, names returned). -/
def list_blobs_in_the_container (container_client : Container) (print_list : Bool) :
    List String × List String :=
  let blob_list := container_client.blobs
  let (printed, blob_list) := if print_list then (blob_list, ([] : List String)) else ([], blob_list)
  (printed, blob_list)

/-- Embedding of delete_blob_file (lines 131-134): one SDK call carrying
the single given name; the container loses exactly that blob.  Returns
the new container state and the trace of SDK calls made. -/
def delete_blob_file (container_client : Container) (file_name : String) :
    Container × List SdkCall :=
  (⟨container_client.blobs.filter (fun b => b != file_name)⟩,
   [SdkCall.delete_blobs [file_name]])

/-- The list comprehension on line 152: select the blob names containing
the target as a literal substring. -/
def list_to_delete (name : String) (blob_list : List String) : List String :=
  blob_list.filter (fun i => pyIn name i)

/-- The inner deletion loop of lines 153-154: delete each selected blob,
threading the container state and concatenating the SDK call traces. -/
def delete_selected (container_client : Container) : List String → Container × List SdkCall
  | [] => (container_client, [])
  | f :: rest =>
      let step := delete_blob_file container_client f
      let next := delete_selected step.1 rest
      (next.1, step.2 ++ next.2)

/-- The loop over name_list of lines 149-154: for each name, list the
blobs (print_list=False), select the matches and delete them. -/
def run_names (container_client : Container) : List String → Container × List SdkCall
  | [] => (container_client, [])
  | name :: rest =>
      let blob_list := (list_blobs_in_the_container container_client false).2
      let selected := list_to_delete name blob_list
      let step := delete_selected container_client selected
      let next := run_names step.1 rest
      (next.1, step.2 ++ next.2)

/-- The matching_string argument of the batch delete: Python
Union[list, str]. -/
inductive MatchingString where
  | str (s : String)
  | list (l : List String)
deriving DecidableEq, Repr

/-- Embedding of delete_all_blobs_that_matching_string_in_their_name
(lines 136-154).  A single string is normalised to a one-element
name_list and processed; a list input skips the normalisation, so the
loop reads the never-assigned variable name_list and the call fails with
an unbound-local error. -/
def delete_all_blobs_that_matching_string_in_their_name
    (container_client : Container) :
    MatchingString → Except String (Container × List SdkCall)
  | .str s => .ok (run_names container_client [s])
  | .list _ => .error "UnboundLocalError: name_list"

/-- Helper: a filter over a list on which the predicate is everywhere
false is empty. -/
theorem filter_nil_of_all_false {α : Type} {p : α → Bool} :
    ∀ {l : List α}, (∀ a ∈ l, p a = false) → l.filter p = []
  | [], _ => rfl
  | a :: l, h => by
      have ha := h a (List.mem_cons_self a l)
      simp [List.filter, ha]
      exact fun x hx => h x (List.mem_cons_of_mem a hx)

/-- The fixed bar width of show_file_progress (line 96). -/
def bar_total_length : Nat := 20

/-- The percentage computation of show_file_progress (line 97):
int((uploaded_size*100) / total_size), which on natural byte counts is
floor division.  Only meaningful for a nonzero total. -/
def percentage_uploaded (uploaded_size total_size : Nat) : Nat :=
  uploaded_size * 100 / total_size

/-- The filled-bar length of show_file_progress (line 98):
int(percentage * bar_total_length / 100). -/
def current_bar_length (uploaded_size total_size : Nat) : Nat :=
  percentage_uploaded uploaded_size total_size * bar_total_length / 100

/-- Embedding of the nested show_file_progress (lines 94-100).  A zero
total makes the division on line 97 fault (ZeroDivisionError), modelled
as none; otherwise the rendered progress-bar string is produced. -/
def show_file_progress (uploaded_size total_size : Nat) : Option String :=
  if total_size = 0 then none
  else
    let percentage := uploaded_size * 100 / total_size
    let bar_len := percentage * bar_total_length / 100
    let progress_bar :=
      "|" ++ String.mk (List.replicate bar_len '#') ++ "|"
        ++ toString percentage ++ "% Completed"
    some progress_bar

/-- The credential objects the module can construct (from azure.identity). -/
inductive Credential where
  | DefaultAzureCredential
  | InteractiveBrowserCredential
deriving DecidableEq, Repr

/-- Embedding of get_azure_credential (lines 21-33): an if/elif chain
with no else branch, followed by return credential; any other type
string leaves the local credential unassigned and the call fails with
an unbound-local error. -/
def get_azure_credential (type : String) : Except String Credential :=
  if type = "default" then .ok .DefaultAzureCredential
  else if type = "interactive" then .ok .InteractiveBrowserCredential
  else .error "UnboundLocalError: credential"

/-- A fragment of Python statement syntax, enough to embed the body of
upload_file_to_blob (lines 92-115) structurally. -/
inductive PyStmt where
  | assign (v : String)
  | exprCall (f : String)
  | printMsg (msg : String)
  | breakStmt
  | forLoop (body : List PyStmt)
  | whileLoop (body : List PyStmt)
  | withBlock (body : List PyStmt)
  | tryExcept (body : List PyStmt) (exc : String) (handler : List PyStmt)

mutual

/-- Does a statement contain a break that is not enclosed by any loop
(a Python syntax error at the position of that break). -/
def hasBreakOutsideLoop : PyStmt → Bool
  | .breakStmt => true
  | .forLoop _ => false
  | .whileLoop _ => false
  | .withBlock body => hasBreakOutsideLoopList body
  | .tryExcept body _ handler =>
      hasBreakOutsideLoopList body || hasBreakOutsideLoopList handler
  | _ => false

/-- List version of hasBreakOutsideLoop over a statement block. -/
def hasBreakOutsideLoopList : List PyStmt → Bool
  | [] => false
  | s :: rest => hasBreakOutsideLoop s || hasBreakOutsideLoopList rest

end

mutual

/-- The exception type names caught by the handlers inside a statement. -/
def handledExcs : PyStmt → List String
  | .tryExcept body e handler => handledExcsList body ++ [e] ++ handledExcsList handler
  | .forLoop b => handledExcsList b
  | .whileLoop b => handledExcsList b
  | .withBlock b => handledExcsList b
  | _ => []

/-- List version of handledExcs over a statement block. -/
def handledExcsList : List PyStmt → List String
  | [] => []
  | s :: rest => handledExcs s ++ handledExcsList rest

end

/-- The except ResourceExistsError handler of lines 113-115: a console
message followed by break. -/
def upload_exception_handler : List PyStmt :=
  [.printMsg "you are trying to upload an existing file in the blob", .breakStmt]

/-- The try body of lines 107-112: build the blob client, then upload
the opened file inside a with block. -/
def upload_try_body : List PyStmt :=
  [.assign "blob_client", .withBlock [.exprCall "upload_blob"]]

/-- The statement block of upload_file_to_blob (lines 102-115). -/
def upload_file_to_blob_body : List PyStmt :=
  [ .assign "interactive_credential",
    .assign "blob_service_client",
    .assign "container_client",
    .assign "file_name_with_folder_structure_on_blob",
    .assign "file_path_to_read",
    .tryExcept upload_try_body "ResourceExistsError" upload_exception_handler ]

/-- C1: delete_all_blobs_that_matching_string_in_their_name selects
exactly the blob names containing the target as a literal substring and
no others; on blob names [a/x.csv, a/y.csv, b/z.csv] with target a/ it
selects exactly a/x.csv and a/y.csv, deleting them and leaving
b/z.csv. -/
theorem substring_selection_exact :
    (∀ (blob_list : List String) (target b : String),
        b ∈ list_to_delete target blob_list ↔ b ∈ blob_list ∧ pyIn target b = true)
    ∧ list_to_delete "a/" ["a/x.csv", "a/y.csv", "b/z.csv"] = ["a/x.csv", "a/y.csv"]
    ∧ delete_all_blobs_that_matching_string_in_their_name
        ⟨["a/x.csv", "a/y.csv", "b/z.csv"]⟩ (.str "a/")
        = .ok (⟨["b/z.csv"]⟩, [.delete_blobs ["a/x.csv"], .delete_blobs ["a/y.csv"]]) := by
  refine ⟨?_, by decide, by rfl⟩
  intro blob_list target b
  simp [list_to_delete, List.mem_filter]

/-- C2: with a list-of-strings argument the normalising branch is
skipped, name_list is never assigned, and the call fails with an
unbound-local error instead of returning a deletion result. -/
theorem list_argument_unbound_local (c : Container) (l : List String) :
    delete_all_blobs_that_matching_string_in_their_name c (.list l)
      = .error "UnboundLocalError: name_list"
    ∧ ∀ r : Container × List SdkCall,
        delete_all_blobs_that_matching_string_in_their_name c (.list l) ≠ .ok r :=
  ⟨rfl, fun _ h => Except.noConfusion h⟩

/-- C4: a zero total byte count reaches the unguarded division on line
97 and show_file_progress faults (modelled as none) for every uploaded
size. -/
theorem zero_total_division_fault (u : Nat) : show_file_progress u 0 = none := rfl

/-- C9: get_azure_credential returns the default credential for
"default" and the interactive browser credential for "interactive"; any
other type string leaves the local variable credential unassigned and
the call fails with an unbound-local error. -/
theorem credential_selection :
    get_azure_credential "default" = .ok .DefaultAzureCredential
    ∧ get_azure_credential "interactive" = .ok .InteractiveBrowserCredential
    ∧ ∀ t : String, t ≠ "default" → t ≠ "interactive" →
        get_azure_credential t = .error "UnboundLocalError: credential" := by
  refine ⟨rfl, rfl, ?_⟩
  intro t h1 h2
  simp [get_azure_credential, h1, h2]

/-- Witness for credential_selection at the concrete type string
"managed". -/
theorem credential_selection_witness :
    ("managed" ≠ "default" ∧ "managed" ≠ "interactive")
    ∧ get_azure_credential "managed" = .error "UnboundLocalError: credential" :=
  ⟨⟨by decide, by decide⟩, credential_selection.2.2 "managed" (by decide) (by decide)⟩

/-- C10: the SDK listing is iterated twice; being single-pass, the call
with print_list=true prints every name and returns the empty list, and
the call with print_list=false prints nothing and returns the full
list. -/
theorem single_pass_listing (c : Container) :
    list_blobs_in_the_container c true = (c.blobs, [])
    ∧ list_blobs_in_the_container c false = ([], c.blobs) :=
  ⟨rfl, rfl⟩

/-- C3: for a positive total, show_file_progress computes the floor
percentage, scales it to the 20-character bar, and renders the bar
string followed by the percentage and the Completed suffix; at
total=200 and uploaded=50 the percentage is 25 and the filled bar
length is 5 of the 20 characters. -/
theorem progress_bar_format (u t : Nat) (ht : 0 < t) :
    show_file_progress u t
      = some ("|" ++ String.mk (List.replicate (current_bar_length u t) '#') ++ "|"
          ++ toString (percentage_uploaded u t) ++ "% Completed")
    ∧ bar_total_length = 20
    ∧ percentage_uploaded 50 200 = 25
    ∧ current_bar_length 50 200 = 5 := by
  have htz : t ≠ 0 := ht.ne'
  refine ⟨?_, rfl, by decide, by decide⟩
  simp [show_file_progress, percentage_uploaded, current_bar_length, htz]

/-- Witness for progress_bar_format at total=200 and uploaded=50. -/
theorem progress_bar_format_witness :
    0 < 200
    ∧ (show_file_progress 50 200
        = some ("|" ++ String.mk (List.replicate (current_bar_length 50 200) '#') ++ "|"
            ++ toString (percentage_uploaded 50 200) ++ "% Completed")
       ∧ bar_total_length = 20
       ∧ percentage_uploaded 50 200 = 25
       ∧ current_bar_length 50 200 = 5) :=
  ⟨by decide, progress_bar_format 50 200 (by decide)⟩

/-- C7: for a fixed positive total, the percentage computed by
show_file_progress is monotone in the uploaded byte count. -/
theorem progress_percentage_monotone (t u1 u2 : Nat) (_ht : 0 < t) (h : u1 < u2) :
    percentage_uploaded u1 t ≤ percentage_uploaded u2 t := by
  unfold percentage_uploaded
  exact Nat.div_le_div_right (by omega)

/-- Witness for progress_percentage_monotone at total=200 with uploads
50 and 60. -/
theorem progress_percentage_monotone_witness :
    0 < 200 ∧ 50 < 60 ∧ percentage_uploaded 50 200 ≤ percentage_uploaded 60 200 :=
  ⟨by decide, by decide,
   progress_percentage_monotone 200 50 60 (by decide) (by decide)⟩

/-- C5: the only exception type handled anywhere in upload_file_to_blob
is ResourceExistsError; its handler is exactly a console message
followed by break, and that break lies outside every loop, which is
invalid. -/
theorem upload_error_handling :
    handledExcsList upload_file_to_blob_body = ["ResourceExistsError"]
    ∧ upload_exception_handler
        = [.printMsg "you are trying to upload an existing file in the blob", .breakStmt]
    ∧ hasBreakOutsideLoopList upload_file_to_blob_body = true :=
  ⟨rfl, rfl, rfl⟩

/-- Helper: the trace produced by the inner deletion loop is one SDK
call per selected name, in order, each carrying that single name. -/
theorem delete_selected_trace (sel : List String) :
    ∀ c : Container,
      (delete_selected c sel).2 = sel.map (fun n => SdkCall.delete_blobs [n]) := by
  induction sel with
  | nil => intro c; rfl
  | cons f rest ih => intro c; simp [delete_selected, delete_blob_file, ih]

/-- C6: delete_blob_file performs exactly one SDK delete call carrying
exactly its single blob name, and for a single-string target the batch
delete emits one such individual call per selected blob name and
nothing else. -/
theorem one_delete_call_per_blob :
    (∀ (c : Container) (f : String),
        (delete_blob_file c f).2 = [SdkCall.delete_blobs [f]])
    ∧ ∀ (c : Container) (s : String),
        delete_all_blobs_that_matching_string_in_their_name c (.str s)
          = .ok ((run_names c [s]).1,
              (list_to_delete s c.blobs).map (fun n => SdkCall.delete_blobs [n])) := by
  refine ⟨fun c f => rfl, fun c s => ?_⟩
  show Except.ok (run_names c [s]) = _
  simp [run_names, list_blobs_in_the_container, delete_selected_trace]

/-- Helper: any blob surviving the inner deletion loop was already in
the container and is none of the deleted names. -/
theorem mem_delete_selected (b : String) (sel : List String) :
    ∀ c : Container, b ∈ ((delete_selected c sel).1).blobs → b ∈ c.blobs ∧ b ∉ sel := by
  induction sel with
  | nil =>
      intro c hb
      exact ⟨hb, by simp⟩
  | cons f rest ih =>
      intro c hb
      have hb2 : b ∈ ((delete_selected (delete_blob_file c f).1 rest).1).blobs := by
        simpa [delete_selected] using hb
      obtain ⟨h1, h2⟩ := ih _ hb2
      have h3 : b ∈ c.blobs ∧ b ≠ f := by
        simpa [delete_blob_file, List.mem_filter, bne_iff_ne] using h1
      refine ⟨h3.1, ?_⟩
      simp [List.mem_cons]
      exact ⟨h3.2, h2⟩

/-- C8: after a single-string run of the batch delete, no remaining blob
name contains the target, so running it again on the resulting
container selects the empty set and deletes nothing (idempotent
convergence). -/
theorem rerun_selects_nothing (c : Container) (s : String) (c1 : Container)
    (t : List SdkCall)
    (h : delete_all_blobs_that_matching_string_in_their_name c (.str s) = .ok (c1, t)) :
    list_to_delete s (list_blobs_in_the_container c1 false).2 = []
    ∧ delete_all_blobs_that_matching_string_in_their_name c1 (.str s) = .ok (c1, []) := by
  simp [delete_all_blobs_that_matching_string_in_their_name] at h
  have hc1 : c1 = (delete_selected c (list_to_delete s c.blobs)).1 := by
    have : c1 = (run_names c [s]).1 := by rw [h]
    simpa [run_names, list_blobs_in_the_container] using this
  have key : ∀ b ∈ c1.blobs, pyIn s b = false := by
    intro b hb
    rw [hc1] at hb
    obtain ⟨hmem, hnot⟩ := mem_delete_selected b (list_to_delete s c.blobs) c hb
    cases hp : pyIn s b with
    | false => rfl
    | true =>
        exact absurd (List.mem_filter.mpr ⟨hmem, hp⟩) hnot
  have hsel : list_to_delete s (list_blobs_in_the_container c1 false).2 = [] :=
    filter_nil_of_all_false key
  refine ⟨hsel, ?_⟩
  show Except.ok (run_names c1 [s]) = _
  have hrun : run_names c1 [s] = (c1, []) := by
    simp [run_names, list_blobs_in_the_container] at hsel ⊢
    simp [hsel, delete_selected]
  rw [hrun]

/-- Witness for rerun_selects_nothing: a concrete first run with target
x/ on blobs [x/a.csv, x/b.csv, y/c.csv], after which the second run
selects nothing and leaves the container unchanged. -/
theorem rerun_selects_nothing_witness :
    delete_all_blobs_that_matching_string_in_their_name
        ⟨["x/a.csv", "x/b.csv", "y/c.csv"]⟩ (.str "x/")
      = .ok (⟨["y/c.csv"]⟩, [.delete_blobs ["x/a.csv"], .delete_blobs ["x/b.csv"]])
    ∧ (list_to_delete "x/" (list_blobs_in_the_container ⟨["y/c.csv"]⟩ false).2 = []
       ∧ delete_all_blobs_that_matching_string_in_their_name ⟨["y/c.csv"]⟩ (.str "x/")
           = .ok (⟨["y/c.csv"]⟩, [])) :=
  ⟨by rfl,
   rerun_selects_nothing ⟨["x/a.csv", "x/b.csv", "y/c.csv"]⟩ "x/" ⟨["y/c.csv"]⟩
     [.delete_blobs ["x/a.csv"], .delete_blobs ["x/b.csv"]] (by rfl)⟩
